import Mathlib

/-!
A verification development for the `bisect-chrome` tool (`src/index.js` and the
default interactive script). The JavaScript is shallowly embedded: revisions are
`Int`, JS strings are `List Char`, the artifact store and the availability check
`browserFetcher.canDownload` are boolean oracles, and the two potentially
unbounded `while` loops (the probe loop of `findDownloadableRevision` and the
main loop of `bisect`) are given an explicit fuel parameter, so that running out
of fuel at every fuel value witnesses divergence of the source loop.
-/

namespace BisectChrome

/-! ### Bisection engine arithmetic (src/index.js, `bisect`) -/

/-- `Math.round((good + bad) / 2)` (src/index.js:117). For an integer sum,
`Math.round` of the half is `⌊(good + bad + 1) / 2⌋`, which is integer division
by 2 rounding toward negative infinity; Lean's `Int` division by a positive
literal is exactly that. -/
def middle (good bad : Int) : Int :=
  (good + bad + 1) / 2

/-- JS truthiness of the `exitCode` value tested by `if (exitCode)`
(src/index.js:150): a nonzero number is truthy; `0` and `null` (modelled as
`none`, the value `runScript` resolves with when the child is killed by a
signal) are falsy. -/
def exitTruthy : Option Int → Bool
  | some c => c != 0
  | none => false

/-- The interval update of `bisect` (src/index.js:150-156):
`if (exitCode) bad = revision; else good = revision;`. Returns the updated
`(good, bad)` pair. -/
def bisectUpdate (good bad revision : Int) (exitCode : Option Int) : Int × Int :=
  if exitTruthy exitCode then (good, revision) else (revision, bad)

/-! ### Availability prober (src/index.js, `findDownloadableRevision`) -/

/-- The `while (min <= down || up <= max)` loop of `findDownloadableRevision`
(src/index.js:233-242), with an explicit fuel. Each round mirrors the source:
`down` is pre-decremented and probed only when `down > min`, `up` is
pre-incremented and probed only when `up < max`; a successful downward probe
wins over a simultaneous upward one. The second component collects every
revision passed to `canDownload` (the `avail` oracle). First component: `none`
means the fuel ran out with the loop still running, `some none` models
`return null`, `some (some r)` models `return r`. -/
def probeLoop (avail : Int → Bool) (mn mx : Int) : Nat → Int → Int → Option (Option Int) × List Int
  | 0, _, _ => (none, [])
  | fuel + 1, down, up =>
    if mn ≤ down ∨ up ≤ mx then
      let down' := if mn < down then down - 1 else down
      let up' := if up < mx then up + 1 else up
      let downOk := if mn < down then avail down' else false
      let upOk := if up < mx then avail up' else false
      let probes := (if mn < down then [down'] else []) ++ (if up < mx then [up'] else [])
      if downOk then (some (some down'), probes)
      else if upOk then (some (some up'), probes)
      else
        let rest := probeLoop avail mn mx fuel down' up'
        (rest.1, probes ++ rest.2)
    else (some none, [])

/-- `findDownloadableRevision(rev, from, to)` (src/index.js:224-250): probes
`rev` itself first, then runs the outward expansion loop between
`min(from, to)` and `max(from, to)`. Returns the outcome together with the
list of every revision passed to `canDownload`. -/
def findDownloadableRevision (avail : Int → Bool) (rev frm tto : Int) (fuel : Nat) :
    Option (Option Int) × List Int :=
  let mn := min frm tto
  let mx := max frm tto
  if avail rev then (some (some rev), [rev])
  else
    let rest := probeLoop avail mn mx fuel rev rev
    (rest.1, rev :: rest.2)

/-! ### Artifact lifecycle inside one bisect iteration (src/index.js:121-148) -/

/-- One iteration's artifact handling. The local store is a predicate on
revisions (`browserFetcher.revisionInfo(revision).local`). `shouldRemove` is
read before downloading (src/index.js:121); the download adds the revision to
the store, and after evaluation `browserFetcher.remove(revision)` runs iff
`shouldRemove` (src/index.js:147-148). Returns the store after the iteration
and the `shouldRemove` flag. -/
def artifactStep (store : Int → Bool) (revision : Int) : (Int → Bool) × Bool :=
  let shouldRemove := !(store revision)
  let afterDownload : Int → Bool := fun x => if x = revision then true else store x
  let afterRemove : Int → Bool :=
    if shouldRemove then fun x => if x = revision then false else afterDownload x
    else afterDownload
  (afterRemove, shouldRemove)

/-- The `while (true)` loop of `bisect` (src/index.js:116-168) with explicit
fuel for both the outer loop and the inner probe loop. `evalExit revision`
models the resolved `exitCode` for the candidate (manual prompt or
`runScript`; `none` models a `null` exit code). The loop breaks when the
prober returns `null` (falsy, as is the revision number `0`) or one of the
current endpoints; otherwise it downloads, evaluates, removes the artifact if
freshly downloaded, and narrows the interval. `none` means some loop ran out
of fuel; `some (good, bad, store)` means the loop broke with that final
state. -/
def bisectLoop (avail : Int → Bool) (evalExit : Int → Option Int) (probeFuel : Nat) :
    Nat → Int → Int → (Int → Bool) → Option (Int × Int × (Int → Bool))
  | 0, _, _, _ => none
  | fuel + 1, good, bad, store =>
    match (findDownloadableRevision avail (middle good bad) good bad probeFuel).1 with
    | none => none
    | some none => some (good, bad, store)
    | some (some revision) =>
      if revision = 0 ∨ revision = good ∨ revision = bad then some (good, bad, store)
      else
        let st := artifactStep store revision
        let gb := bisectUpdate good bad revision (evalExit revision)
        bisectLoop avail evalExit probeFuel fuel gb.1 gb.2 st.1

/-! ### Evaluators -/

/-- A child process termination event as delivered to the `'exit'` listener
(src/index.js:195). Node passes `code = null` (modelled by the `signaled`
constructor) when the child was terminated by a signal. -/
inductive ChildExit where
  | exited (code : Int)
  | signaled (sig : List Char)

/-- The promise resolution of `runScript` (src/index.js:193-196):
`child.on('exit', code => resolve(code))` resolves with the delivered code
unchanged, so a signal-terminated child resolves with `null`. -/
def runScriptResolution : ChildExit → Option Int
  | .exited c => some c
  | .signaled _ => none

/-- JS whitespace characters relevant to `String.prototype.trim`. -/
def jsWhitespace (c : Char) : Bool :=
  c == ' ' || c == '\t' || c == '\n' || c == '\r'

/-- `String.prototype.trim`: drop whitespace from both ends. -/
def jsTrim (s : List Char) : List Char :=
  ((s.dropWhile jsWhitespace).reverse.dropWhile jsWhitespace).reverse

/-- The manual-mode answer handling of `bisect` (src/index.js:131-137), applied
to `answer.trim().toLowerCase()` (the accepted tokens are ASCII, so
`Char.toLower` matches `toLowerCase`): `'g'`/`'good'` sets `exitCode = 0`,
`'b'`/`'bad'` sets `exitCode = 1`, anything else leaves it undefined and
re-prompts (`none`). -/
def manualAnswerExitCode (input : List Char) : Option Int :=
  let answer := (jsTrim input).map Char.toLower
  if answer = "g".data ∨ answer = "good".data then some 0
  else if answer = "b".data ∨ answer = "bad".data then some 1
  else none

/-- `goodAnswers` of the default script's `isGood` (src/unnamed/part_000:39). -/
def goodAnswers : List (List Char) :=
  ["g".data, "good".data, "y".data, "yes".data]

/-- `badAnswers` of the default script's `isGood` (src/unnamed/part_000:40).
The fourth element is the literal `' no'` from the source - it carries a
leading space. -/
def badAnswers : List (List Char) :=
  ["b".data, "bad".data, "n".data, " no".data]

/-- One round of the default script's `isGood` loop (src/unnamed/part_000:42-49)
applied to `answer.toLowerCase()` (no trim in that script): `some true` models
`return true` (good), `some false` models `return false` (bad), `none` models
falling through to the unknown-response message and re-prompting. -/
def classifyAnswer (input : List Char) : Option Bool :=
  let answer := input.map Char.toLower
  if goodAnswers.contains answer then some true
  else if badAnswers.contains answer then some false
  else none

/-- The `while (true)` loop of `isGood` (src/unnamed/part_000:42-49) run over a
finite stream of typed answers: unrecognized answers are consumed and the
prompt repeats; the first recognized answer decides the outcome. -/
def isGood : List (List Char) → Option Bool
  | [] => none
  | a :: rest =>
    match classifyAnswer a with
    | some v => some v
    | none => isGood rest

/-! ### Process lifecycle manager (src/index.js, `Launcher`) -/

/-- The string test `arg.startsWith(pat)` on the `List Char` string model. -/
def strStartsWith : List Char → List Char → Bool
  | _, [] => true
  | [], _ :: _ => false
  | c :: cs, d :: ds => c == d && strStartsWith cs ds

/-- The three shapes of the `ignoreDefaultArgs` option
(src/index.js:328, 339-344): `false` (the default), `true`, or an array of
arguments to drop from the defaults. -/
inductive IgnoreDefaultArgs where
  | off
  | on
  | listed (l : List (List Char))

/-- `Launcher.defaultArgs` (src/index.js:437-452): an optional
`--user-data-dir` for a caller-supplied `userDataDir`, an optional devtools
flag, `about:blank` when every caller argument is flag-like, then the caller
arguments. -/
def defaultArgs (devtools : Bool) (args : List (List Char)) (userDataDir : Option (List Char)) :
    List (List Char) :=
  (match userDataDir with
   | some d => ["--user-data-dir=".data ++ d]
   | none => []) ++
  (if devtools then ["--auto-open-devtools-for-tabs".data] else []) ++
  (if args.all (fun a => strStartsWith a "-".data) then ["about:blank".data] else []) ++
  args

/-- The assembly of `chromeArguments` in `Launcher.launch`
(src/index.js:338-344): defaults when `ignoreDefaultArgs` is falsy, defaults
filtered by the listed arguments when it is an array, the raw caller arguments
when it is `true`. -/
def assembleChromeArguments (ignoreDefaultArgs : IgnoreDefaultArgs) (devtools : Bool)
    (args : List (List Char)) (userDataDir : Option (List Char)) : List (List Char) :=
  match ignoreDefaultArgs with
  | .off => defaultArgs devtools args userDataDir
  | .listed l => (defaultArgs devtools args userDataDir).filter fun a => !(l.contains a)
  | .on => args

/-- The temporary profile decision of `Launcher.launch` (src/index.js:346-351):
a fresh temporary user data dir is created (and appended to the arguments)
only when no assembled argument starts with `--user-data-dir`; otherwise
`temporaryUserDataDir` stays `null`. -/
def temporaryUserDataDirFor (chromeArguments : List (List Char)) (freshDir : List Char) :
    Option (List Char) :=
  if chromeArguments.any (fun a => strStartsWith a "--user-data-dir".data) then none
  else some freshDir

/-- The mutable state closed over by `killChrome` / `gracefullyCloseChrome`
(src/index.js:346, 380, 395-401): the spawned process's pid, Node's
`ChildProcess.killed` flag (set only by the `kill()` method, which this code
never calls - it uses `process.kill` / `taskkill` instead), the `chromeClosed`
flag set by the process's `'exit'` event handler, the registered host-process
signal listeners, and the temporary profile directory (`null` when the caller
supplied one). -/
structure ChromeSession where
  pid : Option Nat
  killed : Bool
  chromeClosed : Bool
  listeners : List Nat
  temporaryUserDataDir : Option (List Char)

/-- Observable effects of one `killChrome` call: whether the guarded force-kill
branch ran, the value handed to `removeFolder.sync` (`rimraf` throws on `null`,
swallowed by the enclosing `try`), and whether the call propagates an
exception to its caller (it never does: both steps sit in `try { } catch`). -/
structure KillChromeEffects where
  killAttempted : Bool
  removalTarget : Option (List Char)
  threw : Bool

/-- `killChrome` (src/index.js:413-430) as a state transition: deregisters all
listeners, force-kills iff `pid && !killed && !chromeClosed`, then attempts to
remove `temporaryUserDataDir`, swallowing any error. Neither the `process.kill`
call nor anything else here sets `killed` or `chromeClosed`; `chromeClosed`
only becomes true when the child's `'exit'` event fires. -/
def killChrome (s : ChromeSession) : ChromeSession × KillChromeEffects :=
  ({ s with listeners := [] },
   { killAttempted := s.pid.isSome && !s.killed && !s.chromeClosed
     removalTarget := s.temporaryUserDataDir
     threw := false })

/-- The `chromeProcess.once('exit', ...)` handler (src/index.js:382-392):
records that Chrome closed (it also removes the temporary profile
asynchronously; only the flag matters to `killChrome`'s guard). -/
def chromeExitEvent (s : ChromeSession) : ChromeSession :=
  { s with chromeClosed := true }

/-- `gracefullyCloseChrome` (src/index.js:407-410), the close capability
returned by `Launcher.launch`: it calls `killChrome` and returns the
wait-for-close promise; its state effect is exactly `killChrome`'s. -/
def gracefullyCloseChrome (s : ChromeSession) : ChromeSession × KillChromeEffects :=
  killChrome s

/-! ### Helper lemmas -/

/-- With every revision unavailable, the probe loop never produces a result at
any fuel: its guard `min <= down || up <= max` can never become false because
`down` is only decremented while strictly above `mn`. -/
lemma probeLoop_allFalse (mn mx : Int) :
    ∀ (fuel : Nat) (down up : Int), mn ≤ down →
      (probeLoop (fun _ => false) mn mx fuel down up).1 = none := by
  intro fuel
  induction fuel with
  | zero => intro down up _; rfl
  | succ n ih =>
    intro down up h
    have hguard : mn ≤ down ∨ up ≤ mx := Or.inl h
    simp only [probeLoop, if_pos hguard, ite_self]
    exact ih _ _ (by split <;> omega)

/-- Every revision the probe loop passes to `canDownload` lies within
`[mn, mx]`, and so does any revision it returns. -/
lemma probeLoop_range (avail : Int → Bool) (mn mx : Int) :
    ∀ (fuel : Nat) (down up : Int), mn ≤ down → down ≤ mx → mn ≤ up → up ≤ mx →
      (∀ p ∈ (probeLoop avail mn mx fuel down up).2, mn ≤ p ∧ p ≤ mx) ∧
      (∀ r, (probeLoop avail mn mx fuel down up).1 = some (some r) → mn ≤ r ∧ r ≤ mx) := by
  intro fuel
  induction fuel with
  | zero =>
    intro down up _ _ _ _
    exact ⟨fun p hp => absurd hp (by simp [probeLoop]), fun r hr => absurd hr (by simp [probeLoop])⟩
  | succ n ih =>
    intro down up h1 h2 h3 h4
    by_cases hguard : mn ≤ down ∨ up ≤ mx
    · simp only [probeLoop, if_pos hguard]
      by_cases hd : mn < down <;> by_cases hu : up < mx <;>
          simp only [hd, hu, if_true, if_false, ite_true, ite_false,
            Bool.false_eq_true, eq_self_iff_true]
      · have hrec := ih (down - 1) (up + 1) (by omega) (by omega) (by omega) (by omega)
        cases hdn : avail (down - 1) <;> cases hup : avail (up + 1) <;>
            simp only [Bool.false_eq_true, eq_self_iff_true, ite_true, ite_false]
        · refine ⟨fun p hp => ?_, fun r hr => hrec.2 r hr⟩
          simp only [List.mem_append, List.mem_singleton] at hp
          rcases hp with (hp | hp) | hp
          · omega
          · omega
          · exact hrec.1 p hp
        · refine ⟨fun p hp => ?_, fun r hr => ?_⟩
          · simp only [List.mem_append, List.mem_singleton] at hp
            rcases hp with hp | hp <;> omega
          · simp only [Option.some.injEq] at hr
            omega
        · refine ⟨fun p hp => ?_, fun r hr => ?_⟩
          · simp only [List.mem_append, List.mem_singleton] at hp
            rcases hp with hp | hp <;> omega
          · simp only [Option.some.injEq] at hr
            omega
        · refine ⟨fun p hp => ?_, fun r hr => ?_⟩
          · simp only [List.mem_append, List.mem_singleton] at hp
            rcases hp with hp | hp <;> omega
          · simp only [Option.some.injEq] at hr
            omega
      · have hrec := ih (down - 1) up (by omega) (by omega) h3 h4
        cases hdn : avail (down - 1) <;>
            simp only [Bool.false_eq_true, eq_self_iff_true, ite_true, ite_false]
        · refine ⟨fun p hp => ?_, fun r hr => hrec.2 r hr⟩
          simp only [List.append_nil, List.mem_append, List.mem_singleton] at hp
          rcases hp with hp | hp
          · omega
          · exact hrec.1 p hp
        · refine ⟨fun p hp => ?_, fun r hr => ?_⟩
          · simp only [List.append_nil, List.mem_singleton] at hp
            omega
          · simp only [Option.some.injEq] at hr
            omega
      · have hrec := ih down (up + 1) h1 h2 (by omega) (by omega)
        cases hup : avail (up + 1) <;>
            simp only [Bool.false_eq_true, eq_self_iff_true, ite_true, ite_false]
        · refine ⟨fun p hp => ?_, fun r hr => hrec.2 r hr⟩
          simp only [List.nil_append, List.mem_append, List.mem_singleton] at hp
          rcases hp with hp | hp
          · omega
          · exact hrec.1 p hp
        · refine ⟨fun p hp => ?_, fun r hr => ?_⟩
          · simp only [List.nil_append, List.mem_singleton] at hp
            omega
          · simp only [Option.some.injEq] at hr
            omega
      · have hrec := ih down up h1 h2 h3 h4
        refine ⟨fun p hp => ?_, fun r hr => hrec.2 r hr⟩
        simp only [List.append_nil, List.nil_append] at hp
        exact hrec.1 p hp
    · simp only [probeLoop, if_neg hguard]
      exact ⟨fun p hp => absurd hp (by simp), fun r hr => by simp at hr⟩

/-- With every revision unavailable and `rev` at least the lower bound,
`findDownloadableRevision` produces no outcome at any fuel. -/
lemma findDownloadableRevision_allFalse (rev frm tto : Int) (fuel : Nat)
    (h : min frm tto ≤ rev) :
    (findDownloadableRevision (fun _ => false) rev frm tto fuel).1 = none := by
  simp only [findDownloadableRevision, ite_false, Bool.false_eq_true]
  exact probeLoop_allFalse (min frm tto) (max frm tto) fuel rev rev h

/-- For a starting revision within the bounds, every probed revision and any
returned revision of `findDownloadableRevision` lies within
`[min frm tto, max frm tto]`. -/
lemma findDownloadableRevision_range (avail : Int → Bool) (rev frm tto : Int) (fuel : Nat)
    (h1 : min frm tto ≤ rev) (h2 : rev ≤ max frm tto) :
    (∀ p ∈ (findDownloadableRevision avail rev frm tto fuel).2,
        min frm tto ≤ p ∧ p ≤ max frm tto) ∧
    (∀ r, (findDownloadableRevision avail rev frm tto fuel).1 = some (some r) →
        min frm tto ≤ r ∧ r ≤ max frm tto) := by
  have hloop := probeLoop_range avail (min frm tto) (max frm tto) fuel rev rev h1 h2 h1 h2
  simp only [findDownloadableRevision]
  cases hrev : avail rev <;>
      simp only [Bool.false_eq_true, eq_self_iff_true, ite_true, ite_false]
  · refine ⟨fun p hp => ?_, fun r hr => hloop.2 r hr⟩
    rcases List.mem_cons.mp hp with hp | hp
    · omega
    · exact hloop.1 p hp
  · refine ⟨fun p hp => ?_, fun r hr => ?_⟩
    · rcases List.mem_singleton.mp hp with hp
      omega
    · rcases hr with hr
      simp only [Option.some.injEq] at hr
      omega

/-- The candidate `Math.round((good + bad) / 2)` always lies between the
current endpoints, in either order. -/
lemma middle_between (good bad : Int) :
    min good bad ≤ middle good bad ∧ middle good bad ≤ max good bad := by
  unfold middle
  omega

/-- An artifact recorded as locally present survives one iteration's
download/remove step. -/
lemma artifactStep_preserves (store : Int → Bool) (revision x : Int)
    (hx : store x = true) : (artifactStep store revision).1 x = true := by
  by_cases hxr : x = revision
  · subst hxr
    simp [artifactStep, hx]
  · unfold artifactStep
    simp only []
    split <;> simp [hxr, hx]

/-- When the bisect loop completes, the final endpoints lie within the initial
interval (in either orientation). -/
lemma bisectLoop_subinterval (avail : Int → Bool) (evalExit : Int → Option Int)
    (probeFuel : Nat) :
    ∀ (fuel : Nat) (good bad : Int) (store : Int → Bool) (g' b' : Int) (st' : Int → Bool),
      bisectLoop avail evalExit probeFuel fuel good bad store = some (g', b', st') →
      min good bad ≤ g' ∧ g' ≤ max good bad ∧ min good bad ≤ b' ∧ b' ≤ max good bad := by
  intro fuel
  induction fuel with
  | zero => intro good bad store g' b' st' h; exact absurd h (by simp [bisectLoop])
  | succ n ih =>
    intro good bad store g' b' st' h
    rw [bisectLoop] at h
    split at h
    · exact absurd h (by simp)
    · simp only [Option.some.injEq, Prod.mk.injEq] at h
      obtain ⟨hg, hb, -⟩ := h
      omega
    · rename_i revision hfdr
      have hmid := middle_between good bad
      have hrange := (findDownloadableRevision_range avail (middle good bad) good bad probeFuel
        hmid.1 hmid.2).2 revision hfdr
      split at h
      · simp only [Option.some.injEq, Prod.mk.injEq] at h
        obtain ⟨hg, hb, -⟩ := h
        omega
      · have hrec := ih _ _ _ _ _ _ h
        revert hrec
        unfold bisectUpdate
        cases exitTruthy (evalExit revision) <;>
            simp only [Bool.false_eq_true, eq_self_iff_true, ite_true, ite_false] <;>
          intro hrec <;> omega

/-- Artifacts recorded as locally present before the run are still recorded as
present when the bisect loop completes. -/
lemma bisectLoop_preserves_local (avail : Int → Bool) (evalExit : Int → Option Int)
    (probeFuel : Nat) :
    ∀ (fuel : Nat) (good bad : Int) (store : Int → Bool) (g' b' : Int) (st' : Int → Bool)
      (x : Int),
      bisectLoop avail evalExit probeFuel fuel good bad store = some (g', b', st') →
      store x = true → st' x = true := by
  intro fuel
  induction fuel with
  | zero => intro good bad store g' b' st' x h; exact absurd h (by simp [bisectLoop])
  | succ n ih =>
    intro good bad store g' b' st' x h hx
    rw [bisectLoop] at h
    split at h
    · exact absurd h (by simp)
    · simp only [Option.some.injEq, Prod.mk.injEq] at h
      obtain ⟨-, -, hst⟩ := h
      rw [← hst]
      exact hx
    · rename_i revision hfdr
      split at h
      · simp only [Option.some.injEq, Prod.mk.injEq] at h
        obtain ⟨-, -, hst⟩ := h
        rw [← hst]
        exact hx
      · exact ih _ _ _ _ _ _ _ h (artifactStep_preserves store revision x hx)

/-! ### Claims -/

/-- C1: the claim says `findDownloadableRevision(rev, from, to)` with `rev`
inside the bounds terminates, returning `null` when no revision in the bounds
can be downloaded. The code refutes this: with every revision unavailable and
`rev = from = to = 5`, no amount of fuel makes the probe loop produce a
result - the loop guard `min <= down || up <= max` can never become false
because `down` is never decremented below `min`, so the `return null`
statement is unreachable and the loop spins forever. -/
theorem C1_prober_never_returns (fuel : Nat) :
    (findDownloadableRevision (fun _ => false) 5 5 5 fuel).1 = none :=
  findDownloadableRevision_allFalse 5 5 5 fuel (by omega)

/-- C2: the claim says the bisection run terminates for every pair
`good ≠ bad`. Refuted through the same unreachable prober exit: with
`good = 5`, `bad = 7` and no downloadable revision, the run never completes
at any outer or probe fuel, because the first iteration's probe loop never
returns. -/
theorem C2_run_never_completes (evalExit : Int → Option Int) (probeFuel fuel : Nat)
    (store : Int → Bool) :
    bisectLoop (fun _ => false) evalExit probeFuel fuel 5 7 store = none := by
  cases fuel with
  | zero => rfl
  | succ n =>
    rw [bisectLoop]
    have hm : middle 5 7 = 6 := by decide
    rw [hm, findDownloadableRevision_allFalse 6 5 7 probeFuel (by omega)]

/-- C3: every revision `findDownloadableRevision` passes to `canDownload` lies
within `[min(from,to), max(from,to)]`, any returned revision lies within the
same bounds, and the final `(good, bad)` pair of a completed bisect run lies
within the initial bounds. -/
theorem C3_probes_and_results_stay_in_bounds
    (avail : Int → Bool) (evalExit : Int → Option Int)
    (rev frm tto p r : Int) (fuel probeFuel bisectFuel : Nat)
    (good bad g' b' : Int) (store st' : Int → Bool)
    (h1 : min frm tto ≤ rev) (h2 : rev ≤ max frm tto)
    (hp : p ∈ (findDownloadableRevision avail rev frm tto fuel).2)
    (hr : (findDownloadableRevision avail rev frm tto fuel).1 = some (some r))
    (hrun : bisectLoop avail evalExit probeFuel bisectFuel good bad store = some (g', b', st')) :
    (min frm tto ≤ p ∧ p ≤ max frm tto) ∧
    (min frm tto ≤ r ∧ r ≤ max frm tto) ∧
    (min good bad ≤ g' ∧ g' ≤ max good bad ∧ min good bad ≤ b' ∧ b' ≤ max good bad) :=
  ⟨(findDownloadableRevision_range avail rev frm tto fuel h1 h2).1 p hp,
   (findDownloadableRevision_range avail rev frm tto fuel h1 h2).2 r hr,
   bisectLoop_subinterval avail evalExit probeFuel bisectFuel good bad store g' b' st' hrun⟩

/-- Witness for C3: availability only at revision 6, probing from 6 in
`[5, 7]`, and a run from `(good, bad) = (5, 6)` that breaks at once because
the candidate equals `bad`. -/
theorem C3_witness :
    ((6:Int) ∈ (findDownloadableRevision (fun x => x == 6) 6 5 7 2).2) ∧
    ((findDownloadableRevision (fun x => x == 6) 6 5 7 2).1 = some (some 6)) ∧
    (bisectLoop (fun x => x == 6) (fun _ => some 0) 2 2 5 6 (fun _ => false) =
      some (5, 6, fun _ => false)) ∧
    ((min (5:Int) 7 ≤ 6 ∧ (6:Int) ≤ max (5:Int) 7) ∧
     (min (5:Int) 7 ≤ 6 ∧ (6:Int) ≤ max (5:Int) 7) ∧
     (min (5:Int) 6 ≤ 5 ∧ (5:Int) ≤ max (5:Int) 6 ∧
      min (5:Int) 6 ≤ 6 ∧ (6:Int) ≤ max (5:Int) 6)) :=
  ⟨by decide, by decide, rfl,
   C3_probes_and_results_stay_in_bounds (fun x => x == 6) (fun _ => some 0) 6 5 7 6 6 2 2 2
     5 6 5 6 (fun _ => false) (fun _ => false) (by omega) (by omega) (by decide) (by decide) rfl⟩

/-- C4: a completed iteration - the prober returned a candidate distinct from
both endpoints - strictly decreases the span `|good - bad|` and keeps
`good ≠ bad`, whatever the evaluation outcome and whichever way the endpoints
are ordered. -/
theorem C4_completed_iteration_shrinks_span
    (avail : Int → Bool) (good bad r : Int) (fuel : Nat) (exitCode : Option Int)
    (hr : (findDownloadableRevision avail (middle good bad) good bad fuel).1 = some (some r))
    (hg : r ≠ good) (hb : r ≠ bad) :
    ((bisectUpdate good bad r exitCode).1 - (bisectUpdate good bad r exitCode).2).natAbs
        < (good - bad).natAbs ∧
    (bisectUpdate good bad r exitCode).1 ≠ (bisectUpdate good bad r exitCode).2 := by
  have hmid := middle_between good bad
  have hrange := (findDownloadableRevision_range avail (middle good bad) good bad fuel
    hmid.1 hmid.2).2 r hr
  unfold bisectUpdate
  cases exitTruthy exitCode <;>
      simp only [Bool.false_eq_true, eq_self_iff_true, ite_true, ite_false] <;>
    exact ⟨by omega, by omega⟩

/-- Witness for C4: probing from `middle 5 7 = 6` with only revision 6
available gives candidate 6, distinct from 5 and 7; a good outcome narrows
the span from 2 to 1. -/
theorem C4_witness :
    ((findDownloadableRevision (fun x => x == 6) (middle 5 7) 5 7 2).1 = some (some 6)) ∧
    ((6:Int) ≠ 5) ∧ ((6:Int) ≠ 7) ∧
    (((bisectUpdate 5 7 6 (some 0)).1 - (bisectUpdate 5 7 6 (some 0)).2).natAbs
        < ((5:Int) - 7).natAbs ∧
     (bisectUpdate 5 7 6 (some 0)).1 ≠ (bisectUpdate 5 7 6 (some 0)).2) :=
  ⟨by decide, by decide, by decide,
   C4_completed_iteration_shrinks_span (fun x => x == 6) 5 7 6 2 (some 0)
     (by decide) (by decide) (by decide)⟩

/-- C5: a zero exit code is falsy and moves `good` to the candidate; any
nonzero exit code is truthy and moves `bad` to the candidate - exactly the
mapping the claim states for the scripted evaluator and the engine's update. -/
theorem C5_exit_code_drives_update (good bad revision c : Int) (hc : c ≠ 0) :
    exitTruthy (some 0) = false ∧
    exitTruthy (some c) = true ∧
    bisectUpdate good bad revision (some 0) = (revision, bad) ∧
    bisectUpdate good bad revision (some c) = (good, revision) := by
  have hct : exitTruthy (some c) = true := by
    simp [exitTruthy, hc]
  refine ⟨rfl, hct, rfl, ?_⟩
  unfold bisectUpdate
  rw [hct]
  simp

/-- Witness for C5 with exit code 7. -/
theorem C5_witness :
    ((7:Int) ≠ 0) ∧
    (exitTruthy (some 0) = false ∧ exitTruthy (some 7) = true ∧
     bisectUpdate 1 2 3 (some 0) = (3, 2) ∧ bisectUpdate 1 2 3 (some 7) = (1, 3)) :=
  ⟨by decide, C5_exit_code_drives_update 1 2 3 7 (by decide)⟩

/-- C6: in the default script's prompt, `"GOOD"`, `"g"`, `"yes"` resolve to
good and `"bad"`, `"n"` to bad, and an unrecognized answer only re-prompts
(here: `isGood` skips it and decides on the next answer) - but the claim
fails for `"no"`: `badAnswers` contains the misspelled `" no"` with a leading
space, so typing `no` re-prompts instead of resolving to bad, while the
unintendable `" no"` resolves to bad. The `--manual` prompt of `bisect` is
stricter still: `"yes"` is not recognized there either. -/
theorem C6_answer_tokens :
    classifyAnswer "GOOD".data = some true ∧
    classifyAnswer "g".data = some true ∧
    classifyAnswer "yes".data = some true ∧
    classifyAnswer "bad".data = some false ∧
    classifyAnswer "n".data = some false ∧
    classifyAnswer "no".data = none ∧
    classifyAnswer " no".data = some false ∧
    isGood ["no".data, "b".data] = some false ∧
    manualAnswerExitCode "yes".data = none := by
  decide

/-- C7: in each iteration the artifact is removed after evaluation exactly
when the revision was not recorded as locally present before the download
(`shouldRemove = !local`); a revision recorded as present before stays
present through its own iteration and through a whole completed run. -/
theorem C7_removal_matches_prior_presence
    (avail : Int → Bool) (evalExit : Int → Option Int) (probeFuel fuel : Nat)
    (store st' : Int → Bool) (revision x good bad g' b' : Int)
    (hrun : bisectLoop avail evalExit probeFuel fuel good bad store = some (g', b', st'))
    (hx : store x = true) (hrev : store revision = true) :
    (artifactStep store revision).2 = !(store revision) ∧
    (artifactStep store revision).1 revision = true ∧
    st' x = true :=
  ⟨rfl, artifactStep_preserves store revision revision hrev,
   bisectLoop_preserves_local avail evalExit probeFuel fuel good bad store g' b' st' x hrun hx⟩

/-- Witness for C7: a store holding revision 3, and a run from `(5, 6)` that
breaks immediately (candidate 6 equals `bad`), leaving the store untouched. -/
theorem C7_witness :
    (bisectLoop (fun z => z == 6) (fun _ => some 0) 2 2 5 6 (fun z => z == 3) =
      some (5, 6, fun z => z == 3)) ∧
    ((fun z : Int => z == 3) 3 = true) ∧
    ((artifactStep (fun z => z == 3) 3).2 = !((fun z : Int => z == 3) 3) ∧
     (artifactStep (fun z => z == 3) 3).1 3 = true ∧
     (fun z : Int => z == 3) 3 = true) :=
  ⟨rfl, by decide,
   C7_removal_matches_prior_presence (fun z => z == 6) (fun _ => some 0) 2 2
     (fun z => z == 3) (fun z => z == 3) 3 3 5 6 5 6 rfl (by decide) (by decide)⟩

/-- Session used to settle C8: a live process (pid known), `kill()` never
called, exit event not yet observed, four registered listeners, a temporary
profile directory. -/
def c8Session : ChromeSession :=
  { pid := some 123, killed := false, chromeClosed := false,
    listeners := [0, 1, 2, 3], temporaryUserDataDir := some "t".data }

/-- C8 counterexample: the first close attempts the kill, and a second close
issued before the child's exit event is observed attempts the kill again -
`process.kill(-pid)` never sets `ChildProcess.killed` and `chromeClosed` only
flips when the exit event fires - refuting "the second call does not attempt
a second kill". No error escapes either call. -/
theorem C8_counterexample_second_close_rekills :
    (gracefullyCloseChrome c8Session).2.killAttempted = true ∧
    (gracefullyCloseChrome (gracefullyCloseChrome c8Session).1).2.killAttempted = true ∧
    (gracefullyCloseChrome (gracefullyCloseChrome c8Session).1).2.threw = false := by
  decide

/-- C8 amended: calling the close capability twice produces no error (both the
kill and the directory removal are wrapped in try/catch), and once the
child's `'exit'` event has been observed, a further close attempts no kill;
only a second close issued before the exit event re-attempts the kill, with
any failure swallowed. -/
theorem C8_amended_double_close (s : ChromeSession) :
    (gracefullyCloseChrome s).2.threw = false ∧
    (gracefullyCloseChrome (gracefullyCloseChrome s).1).2.threw = false ∧
    (gracefullyCloseChrome (chromeExitEvent (gracefullyCloseChrome s).1)).2.killAttempted
      = false := by
  simp [gracefullyCloseChrome, killChrome, chromeExitEvent]

/-- C9: a signal-terminated evaluator child makes `runScript` resolve with a
null exit code; null is falsy at `if (exitCode)`, so the engine takes the
good branch and sets `good` to the candidate rather than treating it as bad
or as an error. -/
theorem C9_signal_treated_as_good (sig : List Char) (good bad revision : Int) :
    runScriptResolution (ChildExit.signaled sig) = none ∧
    exitTruthy (runScriptResolution (ChildExit.signaled sig)) = false ∧
    bisectUpdate good bad revision (runScriptResolution (ChildExit.signaled sig)) =
      (revision, bad) :=
  ⟨rfl, rfl, rfl⟩

/-- Session used for the C10 witness: launcher state after a launch whose
arguments already carried `--user-data-dir` (no temporary directory). -/
def c10Session : ChromeSession :=
  { pid := some 9, killed := false, chromeClosed := false,
    listeners := [0], temporaryUserDataDir := none }

/-- Session with a launcher-created temporary directory, for the last
conjunct of the C10 witness. -/
def c10SessionTemp : ChromeSession :=
  { pid := some 9, killed := false, chromeClosed := false,
    listeners := [0], temporaryUserDataDir := some "d".data }

/-- C10: when the assembled argument list already carries an argument starting
with `--user-data-dir`, `launch` creates no temporary profile directory, and
`killChrome`'s removal step targets exactly the stored temporary directory -
`null` for such a launch, so the caller's directory is never removed and the
rimraf-on-null error is swallowed (no exception escapes). -/
theorem C10_caller_user_data_dir_preserved
    (ignoreDefaultArgs : IgnoreDefaultArgs) (devtools : Bool)
    (args : List (List Char)) (userDataDir : Option (List Char)) (freshDir : List Char)
    (s s₂ : ChromeSession)
    (h : (assembleChromeArguments ignoreDefaultArgs devtools args userDataDir).any
        (fun a => strStartsWith a "--user-data-dir".data) = true)
    (hs : s.temporaryUserDataDir = none) :
    temporaryUserDataDirFor (assembleChromeArguments ignoreDefaultArgs devtools args userDataDir)
        freshDir = none ∧
    (killChrome s).2.removalTarget = none ∧
    (killChrome s).2.threw = false ∧
    (killChrome s₂).2.removalTarget = s₂.temporaryUserDataDir := by
  refine ⟨?_, ?_, rfl, rfl⟩
  · unfold temporaryUserDataDirFor
    rw [if_pos h]
  · simp [killChrome, hs]

/-- Witness for C10: default arguments assembled from a caller argument list
that already sets `--user-data-dir`. -/
theorem C10_witness :
    ((assembleChromeArguments IgnoreDefaultArgs.off false ["--user-data-dir=/p".data] none).any
        (fun a => strStartsWith a "--user-data-dir".data) = true) ∧
    (c10Session.temporaryUserDataDir = none) ∧
    (temporaryUserDataDirFor
        (assembleChromeArguments IgnoreDefaultArgs.off false ["--user-data-dir=/p".data] none)
        "f".data = none ∧
     (killChrome c10Session).2.removalTarget = none ∧
     (killChrome c10Session).2.threw = false ∧
     (killChrome c10SessionTemp).2.removalTarget = c10SessionTemp.temporaryUserDataDir) :=
  ⟨by decide, rfl,
   C10_caller_user_data_dir_preserved IgnoreDefaultArgs.off false
     ["--user-data-dir=/p".data] none "f".data c10Session c10SessionTemp (by decide) rfl⟩

end BisectChrome
